import Mathlib

/-!
Shallow embedding of the core logic of the DB_GUI_in_Dash dashboard
(`src/gui.py`, with `src/newConnection.py` as an earlier revision):

* the last-run display-state derivation (`lastRun`, lines 106-167, and its
  helper `calc_running_job_dur`, lines 74-101);
* the per-job card rendering fallbacks of `create_card_rows` (lines 187-238);
* the per-run row derivation of `create_run_table` (lines 354-418);
* the API-client result shapes of `list_jobs` (lines 55-70) and `jobRuns`
  (lines 32-50), modelled over an abstract HTTP status and parsed body;
* the checkbox-selection reconciliation inside `update_cards`
  (lines 487-510) and the name filter inside `listOfJobsW` (lines 249-279).

Machine integers are `Int` (epoch milliseconds); Python runtime errors
(`TypeError` from subtracting `None`) are modelled with `Except String`.
-/

/-- The `state` sub-dictionary of a run record: both keys may be absent. -/
structure RunState where
  result_state : Option String
  life_cycle_state : Option String
deriving DecidableEq

/-- A raw run record as fetched from the runs-list endpoint.  `start_time`,
`end_time` and the whole `state` dictionary may be absent (`run.get` returns
`None` / `{}` defaults in the source). -/
structure Run where
  start_time : Option Int
  end_time : Option Int
  state : Option RunState
deriving DecidableEq

/-- A raw job record: `job_id` is always present (an integer in the API);
`settings.name` may be absent. -/
structure Job where
  job_id : Nat
  settings_name : Option String
deriving DecidableEq

/-- Python truthiness of an optional integer (`if start_time:`):
`None` and `0` are falsy. -/
def optTruthy : Option Int → Bool
  | some t => t != 0
  | none => false

/-- Python subtraction on two possibly-`None` values: `end_time - start_time`
raises `TypeError` unless both are integers (gui.py line 127 / line 378). -/
def pySub : Option Int → Option Int → Except String Int
  | some a, some b => Except.ok (a - b)
  | _, _ => Except.error "TypeError"

/-- Python `str(...)` on an optional integer (`str(None) = "None"`). -/
def pyStr : Option Int → String
  | some n => toString n
  | none => "None"

/-- Abstraction of
`datetime.fromtimestamp(t / 1000).strftime('%Y-%m-%d %H:%M:%S')`:
an injective rendering of the instant; no claim inspects the calendar text,
only whether the field is this rendering or the `'N/A'` placeholder. -/
def strftimeYmdHMS (ms : Int) : String := "@" ++ toString ms

/-- `run.get('state', {}).get('result_state', 'N/A')` (gui.py line 135). -/
def Run.resultStateStr (r : Run) : String :=
  (r.state.bind RunState.result_state).getD "N/A"

/-- `run.get('state', {}).get('life_cycle_state', 'N/A')` (gui.py line 137). -/
def Run.lifecycleStateStr (r : Run) : String :=
  (r.state.bind RunState.life_cycle_state).getD "N/A"

/-- `calc_running_job_dur` (gui.py lines 74-101): elapsed seconds between
`start_time` (epoch ms) and now (epoch ms), truncated toward zero by
`int(duration.total_seconds())`; `None` when `start_time` is falsy. -/
def calc_running_job_dur (now : Int) (start_time : Option Int) : Option Int :=
  match start_time with
  | some t => if t ≠ 0 then some (Int.tdiv (now - t) 1000) else none
  | none => none

/-- The singular/plural/`'N/A'` rendering shared by gui.py lines 143-147 and
395-399: the value `1` gets suffix `' second'`, everything else
`' seconds'`, and in both branches the string is replaced by `'N/A'` when
`duration_ms` is falsy (zero). -/
def durationText (duration_ms : Int) (fd : Option Int) : String :=
  if fd = some 1 then
    (if duration_ms ≠ 0 then pyStr fd ++ " second" else "N/A")
  else
    (if duration_ms ≠ 0 then pyStr fd ++ " seconds" else "N/A")

/-- The chained conditional of gui.py lines 151-152 (right-associated, as in
Python): SUCCESS, then FAILED, then lifecycle RUNNING, then
MAXIMUM_CONCURRENT_RUNS_REACHED, else gray. -/
def lastRunColor (result_state lifecycle_state : String) : String :=
  if result_state = "SUCCESS" then "#008f00"
  else if result_state = "FAILED" then "red"
  else if lifecycle_state = "RUNNING" then "#ed9a00"
  else if result_state = "MAXIMUM_CONCURRENT_RUNS_REACHED" then "red"
  else "gray"

/-- The derived display record built by `lastRun` (gui.py lines 125-162). -/
structure DisplayRun where
  formatted_start_time : String
  formatted_duration : String
  result_state : String
  lifecycle_state : String
  result_color : String
  lifecycleFont : String
  resultFont : String
deriving DecidableEq

/-- The display-state derivation applied to the fetched run inside `lastRun`
(gui.py lines 125-165), given the current wall clock `now` in epoch ms.
The unconditional `duration_ms = end_time - start_time` (line 127) comes
first and raises when either time is absent. -/
def deriveLastRun (now : Int) (run : Run) : Except String DisplayRun :=
  match pySub run.end_time run.start_time with
  | Except.error e => Except.error e
  | Except.ok duration_ms =>
    let formattedStart :=
      if optTruthy run.start_time then strftimeYmdHMS (run.start_time.getD 0) else "N/A"
    let result_state := run.resultStateStr
    let lifecycle_state := run.lifecycleStateStr
    let fd : Option Int :=
      if lifecycle_state = "RUNNING" ∨ lifecycle_state = "PENDING" then
        calc_running_job_dur now run.start_time
      else
        some (Int.fdiv duration_ms 1000)
    let formattedDuration := durationText duration_ms fd
    let result_color := lastRunColor result_state lifecycle_state
    if lifecycle_state = "RUNNING" ∨ lifecycle_state = "PENDING" then
      Except.ok ⟨formattedStart, formattedDuration, result_state, lifecycle_state,
        result_color, "bold", "normal"⟩
    else
      Except.ok ⟨formattedStart, formattedDuration, result_state, lifecycle_state,
        result_color, "normal", "bold"⟩

/-- `lastRun` (gui.py lines 106-167) over an abstract HTTP response:
on status 200 the parsed `runs` list (key defaulting to `[]`) is consulted
and the first run derived; an empty list, or any non-200 status (the
function falls off the end with no `else`), yields `None`. -/
def lastRun (now : Int) (status : Nat) (runsPayload : Option (List Run)) :
    Except String (Option DisplayRun) :=
  if status = 200 then
    match runsPayload.getD [] with
    | [] => Except.ok none
    | run :: _ => (deriveLastRun now run).map some
  else
    Except.ok none

/-- The style/text fields a single job card renders (gui.py lines 193-234):
each field is `last_run.get(key, 'N/A')` when a derived run exists, and the
per-field literal fallback otherwise. -/
structure CardDisplay where
  title_color : String
  lifecycle_text : String
  lifecycle_color : String
  lifecycle_font_weight : String
  result_text : String
  result_color : String
  result_font_weight : String
  start_time_text : String
  duration_text : String
  border_color : String
deriving DecidableEq

/-- The per-card field selection of `create_card_rows` (gui.py lines
195-232): with no derived run the fallbacks are gray colors, `'N/A'` texts,
`'normal'` lifecycle font (line 202) and `'bold'` result font (line 210). -/
def cardDisplay : Option DisplayRun → CardDisplay
  | none => ⟨"gray", "N/A", "gray", "normal", "N/A", "gray", "bold", "N/A", "N/A", "gray"⟩
  | some d => ⟨d.result_color, d.lifecycle_state, d.result_color, d.lifecycleFont,
      d.result_state, d.result_color, d.resultFont,
      d.formatted_start_time, d.formatted_duration, d.result_color⟩

/-- The run-table result color chain (gui.py line 387), applied after the
`MAXIMUM_CONCURRENT_RUNS_REACHED` → `MAX_CONC_RUNS` rewrite of line 386. -/
def runTableColor (result_state : String) : String :=
  if result_state = "SUCCESS" then "#008f00"
  else if result_state = "FAILED" then "red"
  else if result_state = "MAX_CONC_RUNS" then "red"
  else "black"

/-- One row of the all-runs table (gui.py lines 406-414). -/
structure RunRow where
  start_timeR : String
  duration : String
  lifecycle_state : String
  result_state : String
  result_color : String
  lifecycle_color : String
deriving DecidableEq

/-- The per-run derivation of `create_run_table` (gui.py lines 368-414):
start time formatting, the unconditional `end_time - start_time` (line 378),
the MAX_CONC_RUNS rewrite, the two color chains, the RUNNING/PENDING
duration override and the shared suffix logic. -/
def create_run_table_row (now : Int) (run : Run) : Except String RunRow :=
  match pySub run.end_time run.start_time with
  | Except.error e => Except.error e
  | Except.ok duration_ms =>
    let start_timeR :=
      if optTruthy run.start_time then strftimeYmdHMS (run.start_time.getD 0) else "N/A"
    let result_state0 := run.resultStateStr
    let lifecycle_state := run.lifecycleStateStr
    let result_state :=
      if result_state0 = "MAXIMUM_CONCURRENT_RUNS_REACHED" then "MAX_CONC_RUNS"
      else result_state0
    let result_color := runTableColor result_state
    let lifecycle_color := if lifecycle_state = "RUNNING" then "#ed9a00" else "black"
    let fd : Option Int :=
      if lifecycle_state = "RUNNING" ∨ lifecycle_state = "PENDING" then
        calc_running_job_dur now run.start_time
      else
        some (Int.fdiv duration_ms 1000)
    Except.ok ⟨start_timeR, durationText duration_ms fd, lifecycle_state,
      result_state, result_color, lifecycle_color⟩

/-- `list_jobs` (gui.py lines 55-70) over an abstract response: on status
200 the parsed `jobs` key (defaulting to `[]`); on anything else the
function returns the bare `None` — the status code and body are dropped. -/
def list_jobs (status : Nat) (bodyJobs : Option (List Job)) : Option (List Job) :=
  if status = 200 then some (bodyJobs.getD []) else none

/-- `jobRuns` (gui.py lines 32-50) over an abstract response: on status 200
the parsed `runs` key (defaulting to `[]`); on anything else the empty
list (after printing a diagnostic, not modelled). -/
def jobRuns (status : Nat) (bodyRuns : Option (List Run)) : List Run :=
  if status = 200 then bodyRuns.getD [] else []

/-- The checkbox-selection reconciliation inside `update_cards` (gui.py
lines 503-509): an uninitialized store shows everything; otherwise keep the
jobs whose `str(job_id)` key is truthy in the store (`dict.get` yields
`None`, falsy, for absent keys), and fall back to all jobs when the filter
comes out empty. -/
def update_cards_filter (jobs : List Job)
    (checkbox_states : Option (List (String × Bool))) : List Job :=
  match checkbox_states with
  | none => jobs
  | some m =>
    let selected := jobs.filter (fun job => (m.lookup (toString job.job_id)).getD false)
    if selected = [] then jobs else selected

/-- `job.get('settings', {}).get('name', f"Job ID: {job['job_id']}")`
(gui.py lines 195, 262, 265). -/
def displayName (job : Job) : String :=
  job.settings_name.getD ("Job ID: " ++ toString job.job_id)

/-- Python `str.lower()` restricted to its ASCII action (the only case the
claims exercise): map `'A'..'Z'` to `'a'..'z'`, leave the rest alone. -/
def pyLowerChar (c : Char) : Char :=
  if 'A' ≤ c ∧ c ≤ 'Z' then Char.ofNat (c.toNat + 32) else c

/-- `s.lower()` as a character list. -/
def pyLower (s : String) : List Char := s.data.map pyLowerChar

/-- Python's `needle in hay` on strings: `needle` occurs in `hay` as a
contiguous substring. -/
def pyStrContains : List Char → List Char → Bool
  | needle, [] => needle.isEmpty
  | needle, c :: t => needle.isPrefixOf (c :: t) || pyStrContains needle t

/-- The `filtered_jobs` comprehension of `listOfJobsW` (gui.py line 262):
keep the jobs whose lowercased display name contains the lowercased query
as a contiguous substring (Python's `in` on strings); input order kept. -/
def listOfJobsW_filtered (jobs : List Job) (filter_text : String) : List Job :=
  jobs.filter (fun job => pyStrContains (pyLower filter_text) (pyLower (displayName job)))

/-! ## Helper lemmas -/

/-- `pyStrContains` decides contiguous-substring containment. -/
theorem pyStrContains_iff (needle hay : List Char) :
    pyStrContains needle hay = true ↔ needle <:+: hay := by
  induction hay with
  | nil =>
    simp [pyStrContains, List.isEmpty_iff]
  | cons c t ih =>
    simp [pyStrContains, List.isPrefixOf_iff_prefix, ih, List.infix_cons_iff]

/-- Whenever the last-run derivation succeeds, the color field is the chained
conditional of gui.py lines 151-152 applied to the two state strings. -/
theorem deriveLastRun_color {now : Int} {run : Run} {d : DisplayRun}
    (h : deriveLastRun now run = Except.ok d) :
    d.result_color = lastRunColor run.resultStateStr run.lifecycleStateStr := by
  obtain ⟨st, et, state⟩ := run
  cases st with
  | none => simp [deriveLastRun, pySub] at h
  | some s =>
    cases et with
    | none => simp [deriveLastRun, pySub] at h
    | some e =>
      simp only [deriveLastRun, pySub] at h
      split at h <;> (rw [Except.ok.injEq] at h; subst h; rfl)

/-- Whenever the run-table derivation succeeds, the result color is the chain
of gui.py line 387 applied after the line-386 rewrite. -/
theorem create_run_table_row_color {now : Int} {run : Run} {row : RunRow}
    (h : create_run_table_row now run = Except.ok row) :
    row.result_color = runTableColor
      (if run.resultStateStr = "MAXIMUM_CONCURRENT_RUNS_REACHED" then "MAX_CONC_RUNS"
       else run.resultStateStr) := by
  obtain ⟨st, et, state⟩ := run
  cases st with
  | none => simp [create_run_table_row, pySub] at h
  | some s =>
    cases et with
    | none => simp [create_run_table_row, pySub] at h
    | some e =>
      simp only [create_run_table_row, pySub] at h
      rw [Except.ok.injEq] at h
      subst h
      rfl

/-! ## Claims -/

/-- C1, as stated, is false: in `lastRun` the `lifecycle_state == 'RUNNING'`
check precedes the `MAXIMUM_CONCURRENT_RUNS_REACHED` check, so a run with
that result state and a RUNNING lifecycle is colored with the amber accent,
not red. -/
theorem C1_counterexample :
    (deriveLastRun 5000 ⟨some 1000, some 2000,
        some ⟨some "MAXIMUM_CONCURRENT_RUNS_REACHED", some "RUNNING"⟩⟩).map
      DisplayRun.result_color = Except.ok "#ed9a00"
    ∧ "#ed9a00" ≠ "red" := ⟨rfl, by decide⟩

/-- C1 (amended): the derived `result_color` follows the precedence
SUCCESS → green, FAILED → red, lifecycle RUNNING → amber accent,
MAXIMUM_CONCURRENT_RUNS_REACHED → red, else gray — the lifecycle check comes
before the concurrency-limit check, so the latter yields red only when the
lifecycle is not RUNNING; in the all-runs table the concurrency-limit result
is red regardless of lifecycle. -/
theorem C1_color_precedence :
    (∀ (now : Int) (run : Run) (d : DisplayRun), deriveLastRun now run = Except.ok d →
      ((run.resultStateStr = "SUCCESS" → d.result_color = "#008f00")
       ∧ (run.resultStateStr = "FAILED" → d.result_color = "red")
       ∧ (run.resultStateStr ≠ "SUCCESS" → run.resultStateStr ≠ "FAILED" →
           run.lifecycleStateStr = "RUNNING" → d.result_color = "#ed9a00")
       ∧ (run.resultStateStr = "MAXIMUM_CONCURRENT_RUNS_REACHED" →
           run.lifecycleStateStr ≠ "RUNNING" → d.result_color = "red")
       ∧ (run.resultStateStr ≠ "SUCCESS" → run.resultStateStr ≠ "FAILED" →
           run.resultStateStr ≠ "MAXIMUM_CONCURRENT_RUNS_REACHED" →
           run.lifecycleStateStr ≠ "RUNNING" → d.result_color = "gray")))
    ∧ (∀ (now : Int) (run : Run) (row : RunRow), create_run_table_row now run = Except.ok row →
        run.resultStateStr = "MAXIMUM_CONCURRENT_RUNS_REACHED" → row.result_color = "red") := by
  constructor
  · intro now run d h
    have hc := deriveLastRun_color h
    refine ⟨?_, ?_, ?_, ?_, ?_⟩ <;> intros <;> rw [hc] <;> unfold lastRunColor <;> simp [*]
  · intro now run row h hm
    have hc := create_run_table_row_color h
    rw [hc, if_pos hm]
    rfl

/-- Witness for the amended C1 at a concrete SUCCESS run. -/
theorem C1_color_precedence_witness :
    (deriveLastRun 0 ⟨some 1000, some 126000, some ⟨some "SUCCESS", some "TERMINATED"⟩⟩
      = Except.ok ⟨"@1000", "125 seconds", "SUCCESS", "TERMINATED", "#008f00", "normal", "bold"⟩)
    ∧ (⟨"@1000", "125 seconds", "SUCCESS", "TERMINATED", "#008f00", "normal", "bold"⟩
        : DisplayRun).result_color = "#008f00" :=
  ⟨rfl,
   ((C1_color_precedence.1 0 ⟨some 1000, some 126000, some ⟨some "SUCCESS", some "TERMINATED"⟩⟩
     ⟨"@1000", "125 seconds", "SUCCESS", "TERMINATED", "#008f00", "normal", "bold"⟩ rfl).1 rfl)⟩

/-- C2, as stated, is false: a RUNNING run with `end_time` absent makes the
unconditional `duration_ms = end_time - start_time` (gui.py line 127) raise
a TypeError before any lifecycle check, so the derivation does not return. -/
theorem C2_counterexample :
    deriveLastRun 1005000 ⟨some 1000000, none, some ⟨none, some "RUNNING"⟩⟩
      = Except.error "TypeError" := rfl

/-- C2 (amended): for a RUNNING or PENDING run whose `end_time` is present
(as the live API supplies, `0` while active) and differs from the nonzero
`start_time`, the duration is `now - start_time` in whole (truncated)
seconds with the singular/plural suffix; the spec's end-to-end scenario
holds once the run carries `end_time = 0`. -/
theorem C2_running_duration :
    (∀ (now t e : Int) (rs : Option String) (life : String),
       (life = "RUNNING" ∨ life = "PENDING") → t ≠ 0 → e ≠ t →
       (deriveLastRun now ⟨some t, some e, some ⟨rs, some life⟩⟩).map
           DisplayRun.formatted_duration
         = Except.ok (if Int.tdiv (now - t) 1000 = 1 then "1 second"
             else toString (Int.tdiv (now - t) 1000) ++ " seconds"))
    ∧ deriveLastRun 1000005000 ⟨some 1000000000, some 0, some ⟨none, some "RUNNING"⟩⟩
        = Except.ok ⟨"@1000000000", "5 seconds", "N/A", "RUNNING", "#ed9a00", "bold", "normal"⟩ := by
  constructor
  · intro now t e rs life hl ht he
    have hne : e - t ≠ 0 := sub_ne_zero.mpr he
    obtain rfl | rfl := hl <;>
      simp only [deriveLastRun, pySub, Run.resultStateStr, Run.lifecycleStateStr,
        Option.bind, Option.getD_some, calc_running_job_dur, durationText] <;>
      simp [ht, hne, pyStr, optTruthy] <;>
      split_ifs with h1 <;>
      simp only [Except.map, h1] <;>
      rfl
  · rfl

/-- Witness for the amended C2: a completed-style RUNNING record with a
present `end_time` and an elapsed time below one second. -/
theorem C2_running_duration_witness :
    (deriveLastRun 1000 ⟨some 500, some 700, some ⟨none, some "RUNNING"⟩⟩).map
        DisplayRun.formatted_duration = Except.ok "0 seconds" := by
  have h := C2_running_duration.1 1000 500 700 none "RUNNING" (Or.inl rfl)
    (by decide) (by decide)
  simpa using h

/-- C3, as stated, is false: with no last run the card falls back to `'bold'`
for the result text's font weight (gui.py line 210), so it is not true that
neither text is bold. -/
theorem C3_counterexample :
    ¬ ((cardDisplay none).lifecycle_font_weight ≠ "bold"
        ∧ (cardDisplay none).result_font_weight ≠ "bold") := by decide

/-- C3 (amended): with no last run — an empty run list, or a failed runs
fetch, both of which make `lastRun` yield `None` — every card text renders
`'N/A'` with gray colors and a normal lifecycle font, but the result text's
font weight falls back to `'bold'`. -/
theorem C3_missing_run_display :
    (∀ (now : Int) (status : Nat), lastRun now status (some []) = Except.ok none)
    ∧ (∀ (now : Int) (p : Option (List Run)), lastRun now 500 p = Except.ok none)
    ∧ (cardDisplay none).lifecycle_text = "N/A"
    ∧ (cardDisplay none).result_text = "N/A"
    ∧ (cardDisplay none).start_time_text = "N/A"
    ∧ (cardDisplay none).duration_text = "N/A"
    ∧ (cardDisplay none).title_color = "gray"
    ∧ (cardDisplay none).lifecycle_color = "gray"
    ∧ (cardDisplay none).result_color = "gray"
    ∧ (cardDisplay none).border_color = "gray"
    ∧ (cardDisplay none).lifecycle_font_weight = "normal"
    ∧ (cardDisplay none).result_font_weight = "bold" := by
  refine ⟨?_, ?_, rfl, rfl, rfl, rfl, rfl, rfl, rfl, rfl, rfl, rfl⟩
  · intro now status
    unfold lastRun
    split <;> rfl
  · intro now p
    rfl

/-- C4, as stated, is false: on any non-success status `list_jobs` returns
the bare `None`, identical across status codes and bodies, so the returned
value carries neither the status code nor the response body. -/
theorem C4_counterexample :
    list_jobs 500 (some [⟨1, some "A"⟩]) = list_jobs 404 none
    ∧ (500 : Nat) ≠ 404 := ⟨rfl, by decide⟩

/-- C4 (amended): `list_jobs` is total (never throws): on success it returns
the parsed `jobs` sequence, and on every non-success status it returns the
bare `None`, with no status code or body attached (the diagnostic print of
the `newConnection` revision is a side effect, not a return value). -/
theorem C4_list_jobs_result (status : Nat) (body : Option (List Job)) :
    (status = 200 → list_jobs status body = some (body.getD []))
    ∧ (status ≠ 200 → list_jobs status body = none) := by
  constructor <;> intro h <;> simp [list_jobs, h]

/-- Witness for the amended C4 at a success and an error status. -/
theorem C4_list_jobs_result_witness :
    list_jobs 200 (some [⟨1, some "A"⟩]) = some [⟨1, some "A"⟩]
    ∧ list_jobs 404 (some [⟨1, some "A"⟩]) = none :=
  ⟨(C4_list_jobs_result 200 (some [⟨1, some "A"⟩])).1 rfl,
   (C4_list_jobs_result 404 (some [⟨1, some "A"⟩])).2 (by decide)⟩

/-- C5: the reconciliation inside `update_cards` shows everything when the
selection store was never initialized, otherwise keeps the jobs whose id
maps to a truthy flag, and falls back to the full list whenever that filter
comes out empty; the spec's end-to-end scenario holds. -/
theorem C5_reconcile_selection (jobs : List Job) (m : List (String × Bool)) :
    update_cards_filter jobs none = jobs
    ∧ (jobs.filter (fun job => (m.lookup (toString job.job_id)).getD false) = [] →
        update_cards_filter jobs (some m) = jobs)
    ∧ (jobs.filter (fun job => (m.lookup (toString job.job_id)).getD false) ≠ [] →
        update_cards_filter jobs (some m)
          = jobs.filter (fun job => (m.lookup (toString job.job_id)).getD false))
    ∧ update_cards_filter [⟨1, some "A"⟩, ⟨2, some "B"⟩] (some [("1", true), ("2", false)])
        = [⟨1, some "A"⟩] := by
  refine ⟨rfl, ?_, ?_, by decide⟩ <;>
    intro h <;> simp only [update_cards_filter] <;> simp [h]

/-- Witness for C5: an all-false selection falls back to the full list, a
selecting one keeps the selected job. -/
theorem C5_reconcile_selection_witness :
    update_cards_filter [⟨1, some "A"⟩] (some [("1", false)]) = [⟨1, some "A"⟩]
    ∧ update_cards_filter [⟨1, some "A"⟩] (some [("1", true)]) = [⟨1, some "A"⟩] :=
  ⟨(C5_reconcile_selection [⟨1, some "A"⟩] [("1", false)]).2.1 (by decide),
   (C5_reconcile_selection [⟨1, some "A"⟩] [("1", true)]).2.2.1 (by decide)⟩

/-- C6, as stated, is false on the zero-duration corner: a completed run with
both times present but equal renders `'N/A'` (the fallback tests the
truthiness of `duration_ms`, which is 0), not `'0 seconds'`. -/
theorem C6_counterexample :
    (deriveLastRun 9999 ⟨some 5000, some 5000,
        some ⟨some "SUCCESS", some "TERMINATED"⟩⟩).map DisplayRun.formatted_duration
      = Except.ok "N/A"
    ∧ "N/A" ≠ "0 seconds" := ⟨rfl, by decide⟩

/-- C6 (amended): for a completed run with both times present and distinct,
the duration is `floor((end_time - start_time) / 1000)` with the exact
`' second'`/`' seconds'` suffix; with both times present and equal it
renders `'N/A'`; with either time absent the derivation raises a TypeError
instead of rendering `'N/A'`. -/
theorem C6_completed_duration :
    (∀ (now s e : Int) (st : Option RunState),
       (⟨some s, some e, st⟩ : Run).lifecycleStateStr ≠ "RUNNING" →
       (⟨some s, some e, st⟩ : Run).lifecycleStateStr ≠ "PENDING" →
       e ≠ s →
       (deriveLastRun now ⟨some s, some e, st⟩).map DisplayRun.formatted_duration
         = Except.ok (if Int.fdiv (e - s) 1000 = 1 then "1 second"
             else toString (Int.fdiv (e - s) 1000) ++ " seconds"))
    ∧ (∀ (now s : Int) (st : Option RunState),
        (deriveLastRun now ⟨some s, some s, st⟩).map DisplayRun.formatted_duration
          = Except.ok "N/A")
    ∧ (∀ (now s : Int) (st : Option RunState),
        deriveLastRun now ⟨some s, none, st⟩ = Except.error "TypeError")
    ∧ (∀ (now : Int) (e : Option Int) (st : Option RunState),
        deriveLastRun now ⟨none, e, st⟩ = Except.error "TypeError") := by
  refine ⟨?_, ?_, ?_, ?_⟩
  · intro now s e st h1 h2 he
    have hne : e - s ≠ 0 := sub_ne_zero.mpr he
    simp only [deriveLastRun, pySub, durationText]
    simp [h1, h2, hne]
    split_ifs with hd <;> rename_i hfd <;> simp only [Except.map, pyStr, hfd] <;> rfl
  · intro now s st
    simp only [deriveLastRun, pySub, durationText]
    simp
    split <;> rfl
  · intro now s st
    rfl
  · intro now e st
    cases e <;> rfl

/-- Witness for the amended C6: the spec's own completed-run scenario
(`end_time - start_time = 125000` ms) renders `'125 seconds'`. -/
theorem C6_completed_duration_witness :
    (deriveLastRun 0 ⟨some 1000, some 126000,
        some ⟨some "SUCCESS", some "TERMINATED"⟩⟩).map DisplayRun.formatted_duration
      = Except.ok "125 seconds" := by
  have h := C6_completed_duration.1 0 1000 126000 (some ⟨some "SUCCESS", some "TERMINATED"⟩)
    (by decide) (by decide) (by decide)
  simpa using h

/-- C7: `jobRuns` soft-fails — on any non-success status it returns the
empty sequence rather than raising, and on success it returns the parsed
`runs` sequence (key defaulting to the empty list). -/
theorem C7_jobRuns_soft_fail (status : Nat) (body : Option (List Run)) :
    (status ≠ 200 → jobRuns status body = [])
    ∧ (status = 200 → jobRuns status body = body.getD []) := by
  constructor <;> intro h <;> simp [jobRuns, h]

/-- Witness for C7 at an error and a success status. -/
theorem C7_jobRuns_soft_fail_witness :
    jobRuns 500 (some [⟨some 1, some 2, none⟩]) = []
    ∧ jobRuns 200 (some [⟨some 1, some 2, none⟩]) = [⟨some 1, some 2, none⟩] :=
  ⟨(C7_jobRuns_soft_fail 500 (some [⟨some 1, some 2, none⟩])).1 (by decide),
   (C7_jobRuns_soft_fail 200 (some [⟨some 1, some 2, none⟩])).2 rfl⟩

/-- C8: the name filter keeps exactly the jobs whose display name (settings
name, falling back to `Job ID: <id>`) contains the query as a
case-insensitive contiguous substring; it is a plain filter, so the input
order is preserved with no ranking, and the spec's ETL example holds. -/
theorem C8_name_filter :
    (∀ (jobs : List Job) (q : String) (j : Job),
        j ∈ listOfJobsW_filtered jobs q
          ↔ j ∈ jobs ∧ pyLower q <:+: pyLower (displayName j))
    ∧ (∀ (jobs : List Job) (q : String), List.Sublist (listOfJobsW_filtered jobs q) jobs)
    ∧ listOfJobsW_filtered [⟨7, some "ETL Load"⟩] "etl" = [⟨7, some "ETL Load"⟩] := by
  refine ⟨?_, ?_, rfl⟩
  · intro jobs q j
    simp [listOfJobsW_filtered, List.mem_filter, pyStrContains_iff]
  · intro jobs q
    exact List.filter_sublist _

/-- C9: a completed run whose two timestamps are present and equal renders
the duration as `'N/A'` (the fallback tests the truthiness of the zero
millisecond difference), not as `'0 seconds'`. -/
theorem C9_zero_ms_duration (now t : Int) (run : Run)
    (hs : run.start_time = some t) (he : run.end_time = some t)
    (h1 : run.lifecycleStateStr ≠ "RUNNING") (h2 : run.lifecycleStateStr ≠ "PENDING") :
    (deriveLastRun now run).map DisplayRun.formatted_duration = Except.ok "N/A"
    ∧ "N/A" ≠ "0 seconds" := by
  obtain ⟨st, et, state⟩ := run
  simp only at hs he
  subst hs he
  refine ⟨?_, by decide⟩
  simp only [deriveLastRun, pySub, durationText]
  simp [h1, h2]
  split <;> rfl

/-- Witness for C9: a FAILED run with equal timestamps. -/
theorem C9_zero_ms_duration_witness :
    (deriveLastRun 0 ⟨some 4000, some 4000,
        some ⟨some "FAILED", some "TERMINATED"⟩⟩).map DisplayRun.formatted_duration
      = Except.ok "N/A"
    ∧ "N/A" ≠ "0 seconds" :=
  C9_zero_ms_duration 0 4000 ⟨some 4000, some 4000, some ⟨some "FAILED", some "TERMINATED"⟩⟩
    rfl rfl (by decide) (by decide)

/-- C10: both the selection reconciliation and the name filter return a
subsequence of the input job list — every output job occurs in the input,
relative order is preserved, and no job is duplicated or invented. -/
theorem C10_subsequence (jobs : List Job) (sel : Option (List (String × Bool)))
    (q : String) :
    List.Sublist (update_cards_filter jobs sel) jobs
    ∧ List.Sublist (listOfJobsW_filtered jobs q) jobs := by
  constructor
  · cases sel with
    | none => exact List.Sublist.refl jobs
    | some m =>
      simp only [update_cards_filter]
      split
      · exact List.Sublist.refl jobs
      · exact List.filter_sublist _
  · exact List.filter_sublist _
